import Mathlib

/-!
Verification development for the tool-orchestration engine of the RAG chatbot
repository.  The orchestrator (`backend/ai_generator.py`) is embedded as pure
Lean functions; the Model Client and the tool manager are parameters, so that
theorems quantify over every client/handler behavior.  The Content Search tool
(`search_tools.py`) is embedded from the specification, as noted on the
relevant definitions.
-/

namespace RagChatbot

/-- Arguments of one tool invocation (`content_block.input`), a string map. -/
abbrev ToolArgs := List (String × String)

/-- One block of a model response's `content` list, duck-typed as in the
source: `type` distinguishes text from tool-use blocks, and the remaining
fields mirror the attributes the orchestrator reads (`text`, `id`, `name`,
`input`). -/
structure ContentBlock where
  type : String
  text : String
  id : String
  name : String
  input : ToolArgs
  deriving Repr, DecidableEq

/-- A Model Client response: `stop_reason` plus the `content` block list. -/
structure ModelResponse where
  stop_reason : String
  content : List ContentBlock
  deriving Repr, DecidableEq

/-- One formatted tool result, as built by `AIGenerator._execute_tools`. -/
structure ToolResult where
  tool_use_id : String
  content : String
  deriving Repr, DecidableEq

/-- The payload of one transcript message: a plain string (the user query),
the assistant's content blocks, or a list of tool results. -/
inductive MessageContent where
  | str : String → MessageContent
  | blocks : List ContentBlock → MessageContent
  | toolResults : List ToolResult → MessageContent
  deriving Repr, DecidableEq

/-- One transcript message (`{"role": ..., "content": ...}`). -/
structure Message where
  role : String
  content : MessageContent
  deriving Repr, DecidableEq

/-- A tool schema is opaque to the orchestrator; only its presence matters. -/
abbrev ToolSchema := String

/-- The parameters of one `client.messages.create` call: the transcript, the
system content, the `tools` key (absent = `none`), and whether a
`tool_choice = auto` key is present. -/
structure ApiParams where
  messages : List Message
  system : String
  tools : Option (List ToolSchema)
  tool_choice_auto : Bool
  deriving Repr, DecidableEq

/-- A Model Client behavior: the response returned to an invocation, as a
function of the parameters of every invocation of the run up to and including
the current one.  This models an arbitrary deterministic client. -/
abbrev ModelClient := List ApiParams → ModelResponse

/-- A tool manager behavior at the orchestrator's interface:
`execute_tool(name, **input)`, where `none` models a call that produced no
result (the `tool_result is not None` check in `_execute_tools`). -/
abbrev ToolManager := String → ToolArgs → Option String

/-- The static system prompt of `AIGenerator`. -/
def SYSTEM_PROMPT : String :=
  " You are an AI assistant specialized in course materials and educational content with access to comprehensive search tools for course information.\n\nAvailable Tools:\n- **search_course_content**: Search within course materials for specific content\n- **get_course_outline**: Get course overview with title, link, and complete lesson list\n\nTool Usage Guidelines:\n- Use **search_course_content** for questions about specific course content or detailed educational materials\n- Use **get_course_outline** for questions about course structure, lesson lists, or course overviews\n- **Multi-round tool usage**: You can use tools up to 2 times in separate rounds for complex queries\n- **Sequential reasoning**: Use initial tool results to inform follow-up tool calls when needed\n- **Progressive information gathering**: Start broad, then narrow focus based on results\n- Synthesize tool results into accurate, fact-based responses\n- If tools yield no results, state this clearly without offering alternatives\n\nMulti-Tool Usage Examples:\n- Search broad course content → Get specific course outline for detailed structure\n- Search one course → Search related course for comparison or additional context  \n- Get course outline → Search specific lesson content for detailed information\n- Find course discussing topic X → Search for courses with similar topics for comparison\n\nResponse Protocol:\n- **General knowledge questions**: Answer using existing knowledge without using tools\n- **Course-specific content questions**: Use search_course_content first, then answer\n- **Course outline/structure questions**: Use get_course_outline first, then answer\n- **Complex queries**: Use multiple tool rounds to gather comprehensive information, then synthesize\n- **No meta-commentary**:\n - Provide direct answers only — no reasoning process, tool explanations, or question-type analysis\n - Do not mention \"based on the search results\" or \"using the outline tool\"\n - Do not explain your multi-round tool usage process\n\nAll responses must be:\n1. **Brief, Concise and focused** - Get to the point quickly\n2. **Educational** - Maintain instructional value\n3. **Clear** - Use accessible language\n4. **Example-supported** - Include relevant examples when they aid understanding\nProvide only the direct answer to what was asked.\n"

/-- The fixed fallback string of the all-tools-failed branch. -/
def FALLBACK_MESSAGE : String :=
  "I apologize, but I encountered an error while processing your request."

/-- `MAX_TOOL_ROUNDS` from `AIGenerator.__init__`. -/
def MAX_TOOL_ROUNDS : Nat := 2

/-- `response.content[0].text`, as an `Option` (`none` models the IndexError
on an empty content list). -/
def firstText? (content : List ContentBlock) : Option String :=
  content.head?.map (fun b => b.text)

/-- The user message `{"role": "user", "content": query}`. -/
def userMsg (query : String) : Message :=
  { role := "user", content := .str query }

/-- The parameters of a tool-round invocation (`tools` plus auto choice). -/
def toolParams (messages : List Message) (system : String)
    (tools : List ToolSchema) : ApiParams :=
  { messages := messages, system := system, tools := some tools,
    tool_choice_auto := true }

/-- The parameters of an invocation without tools (degenerate path and forced
synthesis). -/
def finalParams (messages : List Message) (system : String) : ApiParams :=
  { messages := messages, system := system, tools := none,
    tool_choice_auto := false }

/-- `AIGenerator._execute_tools`: dispatch every `tool_use` block in order and
keep one result per call that produced one (the `is not None` check). -/
def execute_tools (tool_manager : ToolManager) :
    List ContentBlock → List ToolResult
  | [] => []
  | block :: rest =>
    if block.type = "tool_use" then
      match tool_manager block.name block.input with
      | some result =>
          { tool_use_id := block.id, content := result } ::
            execute_tools tool_manager rest
      | none => execute_tools tool_manager rest
    else
      execute_tools tool_manager rest

/-- The `while round_count < self.MAX_TOOL_ROUNDS` loop of
`AIGenerator._sequential_tool_calling`, with `fuel = MAX_TOOL_ROUNDS -
round_count`; it accumulates in `trace` the parameters of every model
invocation.  `fuel = 0` is the forced synthesis without tools.  The result is
the invocation trace together with the returned text (`none` models the
IndexError of `content[0]` on an empty content list). -/
def seqLoop (client : ModelClient) (system : String) (tools : List ToolSchema)
    (tool_manager : ToolManager) (messages : List Message)
    (trace : List ApiParams) : Nat → List ApiParams × Option String
  | 0 =>
    let trace := trace ++ [finalParams messages system]
    (trace, firstText? (client trace).content)
  | fuel + 1 =>
    let trace := trace ++ [toolParams messages system tools]
    let response := client trace
    if response.stop_reason ≠ "tool_use" then
      (trace, firstText? response.content)
    else
      let messages :=
        messages ++ [{ role := "assistant", content := .blocks response.content }]
      let tool_results := execute_tools tool_manager response.content
      if tool_results.isEmpty then
        (trace, some (match response.content with
          | [] => FALLBACK_MESSAGE
          | block :: _ => block.text))
      else
        seqLoop client system tools tool_manager
          (messages ++ [{ role := "user", content := .toolResults tool_results }])
          trace fuel

/-- `AIGenerator._sequential_tool_calling`. -/
def sequential_tool_calling (client : ModelClient) (query system_content : String)
    (tools : List ToolSchema) (tool_manager : ToolManager) :
    List ApiParams × Option String :=
  seqLoop client system_content tools tool_manager [userMsg query] []
    MAX_TOOL_ROUNDS

/-- The system content built at the top of `generate_response`: the prompt
plus a "Previous conversation" section when the history is truthy. -/
def buildSystem : Option String → String
  | some h =>
      if h = "" then SYSTEM_PROMPT
      else SYSTEM_PROMPT ++ "\n\nPrevious conversation:\n" ++ h
  | none => SYSTEM_PROMPT

/-- The single API call of the no-tools path of `generate_response`. -/
def noToolsCall (client : ModelClient) (query system_content : String) :
    List ApiParams × Option String :=
  let p := finalParams [userMsg query] system_content
  ([p], firstText? (client [p]).content)

/-- `AIGenerator.generate_response`: route to `_sequential_tool_calling` when
`tools and tool_manager` is truthy (a non-empty tools list and a present
manager), else make one call without tools. -/
def generate_response (client : ModelClient) (query : String)
    (conversation_history : Option String) (tools : Option (List ToolSchema))
    (tool_manager : Option ToolManager) : List ApiParams × Option String :=
  let system_content := buildSystem conversation_history
  match tools, tool_manager with
  | some ts, some tm =>
      if ts.isEmpty then noToolsCall client query system_content
      else sequential_tool_calling client query system_content ts tm
  | some _, none => noToolsCall client query system_content
  | none, _ => noToolsCall client query system_content

/-! ### Exception-aware variant of the orchestrator

To reason about which failures can escape `generate_response`, the same code
is embedded once more with fallible collaborators: the Model Client may fail
(transport failure, `Except.error`) and a tool manager may raise.  The source
(`_execute_tools`, `_sequential_tool_calling`) catches neither, so both
propagate in this embedding exactly where a Python exception would. -/

/-- A fallible Model Client: `Except.error` models a transport failure. -/
abbrev ModelClientE := List ApiParams → Except String ModelResponse

/-- A fallible tool manager: `Except.error` models a raised exception,
`Except.ok none` a call that produced no result. -/
abbrev ToolManagerE := String → ToolArgs → Except String (Option String)

/-- `AIGenerator._execute_tools` with a possibly-raising manager: the source
has no try/except here, so a raised exception aborts the iteration and
propagates. -/
def execute_toolsE (tool_manager : ToolManagerE) :
    List ContentBlock → Except String (List ToolResult)
  | [] => .ok []
  | block :: rest =>
    if block.type = "tool_use" then
      match tool_manager block.name block.input with
      | .error e => .error e
      | .ok none => execute_toolsE tool_manager rest
      | .ok (some result) =>
          match execute_toolsE tool_manager rest with
          | .error e => .error e
          | .ok rs => .ok ({ tool_use_id := block.id, content := result } :: rs)
    else
      execute_toolsE tool_manager rest

/-- The `_sequential_tool_calling` loop with fallible collaborators; any
failure of the client or of tool dispatch propagates uncaught. -/
def seqLoopE (client : ModelClientE) (system : String) (tools : List ToolSchema)
    (tool_manager : ToolManagerE) (messages : List Message)
    (trace : List ApiParams) : Nat → Except String (List ApiParams × Option String)
  | 0 =>
    let trace := trace ++ [finalParams messages system]
    match client trace with
    | .error e => .error e
    | .ok response => .ok (trace, firstText? response.content)
  | fuel + 1 =>
    let trace := trace ++ [toolParams messages system tools]
    match client trace with
    | .error e => .error e
    | .ok response =>
      if response.stop_reason ≠ "tool_use" then
        .ok (trace, firstText? response.content)
      else
        let messages :=
          messages ++
            [{ role := "assistant", content := .blocks response.content }]
        match execute_toolsE tool_manager response.content with
        | .error e => .error e
        | .ok tool_results =>
          if tool_results.isEmpty then
            .ok (trace, some (match response.content with
              | [] => FALLBACK_MESSAGE
              | block :: _ => block.text))
          else
            seqLoopE client system tools tool_manager
              (messages ++
                [{ role := "user", content := .toolResults tool_results }])
              trace fuel

/-- `_sequential_tool_calling` with fallible collaborators. -/
def sequential_tool_callingE (client : ModelClientE)
    (query system_content : String) (tools : List ToolSchema)
    (tool_manager : ToolManagerE) :
    Except String (List ApiParams × Option String) :=
  seqLoopE client system_content tools tool_manager [userMsg query] []
    MAX_TOOL_ROUNDS

/-- The no-tools call with a fallible client. -/
def noToolsCallE (client : ModelClientE) (query system_content : String) :
    Except String (List ApiParams × Option String) :=
  let p := finalParams [userMsg query] system_content
  match client [p] with
  | .error e => .error e
  | .ok response => .ok ([p], firstText? response.content)

/-- `generate_response` with fallible collaborators. -/
def generate_responseE (client : ModelClientE) (query : String)
    (conversation_history : Option String) (tools : Option (List ToolSchema))
    (tool_manager : Option ToolManagerE) :
    Except String (List ApiParams × Option String) :=
  let system_content := buildSystem conversation_history
  match tools, tool_manager with
  | some ts, some tm =>
      if ts.isEmpty then noToolsCallE client query system_content
      else sequential_tool_callingE client query system_content ts tm
  | some _, none => noToolsCallE client query system_content
  | none, _ => noToolsCallE client query system_content

/-! ### The ToolRegistry (spec-modelled)

`search_tools.py` (the `ToolManager`/registry and the `CourseSearchTool`) is
not among the sources; only its tests and its caller `ai_generator.py` are.
The definitions below are therefore modelled from the specification. -/

/-- A registered tool handler; `Except.error` models a raised exception. -/
abbrev Handler := ToolArgs → Except String String

/-- A dispatch outcome (`ToolOutcome` of the spec, without the call id). -/
structure ToolOutcome where
  content : String
  failed : Bool
  deriving Repr, DecidableEq

/-- Modelled from the spec: the ToolRegistry (`ToolManager` of the missing
`search_tools.py`) holds named tools and dispatches invocations by name. -/
structure ToolRegistry where
  handlers : List (String × Handler)

/-- Modelled from the spec: `dispatch(name, arguments)` looks up the handler
by name; if absent, returns a failed outcome describing "unknown tool";
otherwise invokes the handler and wraps a raised failure as a failed outcome
rather than propagating. -/
def ToolRegistry.dispatch (reg : ToolRegistry) (name : String)
    (args : ToolArgs) : ToolOutcome :=
  match reg.handlers.lookup name with
  | none => { content := "unknown tool: " ++ name, failed := true }
  | some handler =>
    match handler args with
    | .ok result => { content := result, failed := false }
    | .error e => { content := e, failed := true }

/-- Modelled from the spec: the registry seen through the orchestrator's
`execute_tool` interface — a failed outcome is the "produced no result" case
that the orchestrator omits from the `ToolResultTurn`. -/
def ToolRegistry.execute_tool (reg : ToolRegistry) (name : String)
    (args : ToolArgs) : Option String :=
  let outcome := reg.dispatch name args
  if outcome.failed then none else some outcome.content

/-- The registry as a fallible tool manager: dispatch itself is total, so it
never raises at the orchestrator's boundary. -/
def registryManagerE (reg : ToolRegistry) : ToolManagerE :=
  fun name args => .ok (reg.execute_tool name args)

/-! ### The Content Search tool (spec-modelled)

`CourseSearchTool.execute` lives in the missing `search_tools.py`; the
definitions below are modelled from the specification (§4.3), with the exact
strings pinned by the repository's own tests. -/

/-- Search-hit metadata: the two keys the tool reads, each possibly absent. -/
structure SearchMetadata where
  course_title : Option String
  lesson_number : Option Int
  deriving Repr, DecidableEq

/-- `SearchResults` from `vector_store.py` (documents, metadata, error). -/
structure SearchResults where
  documents : List String
  metadata : List SearchMetadata
  error : Option String
  deriving Repr, DecidableEq

/-- One provenance record surfaced to the caller. -/
structure SourceRecord where
  text : String
  link : Option String
  deriving Repr, DecidableEq

/-- The Retrieval Backend consumed by the Content Search tool. -/
structure VectorStore where
  search : String → Option String → Option Int → SearchResults
  get_lesson_link : String → Int → Option String

/-- Modelled from the spec: the "no relevant content found" message of
`CourseSearchTool.execute`, whose wording depends on which filters were
supplied — four variants (none, course only, lesson only, both). -/
def emptyResultMessage (course_name : Option String)
    (lesson_number : Option Int) : String :=
  "No relevant content found" ++
    (match course_name with
      | some c => " in course '" ++ c ++ "'"
      | none => "") ++
    (match lesson_number with
      | some n => " in lesson " ++ toString n
      | none => "") ++ "."

/-- Modelled from the spec: the resolved course title of a match, with the
literal "unknown" substituted when `course_title` is absent from metadata. -/
def courseTitleOf (m : SearchMetadata) : String :=
  match m.course_title with
  | some t => t
  | none => "unknown"

/-- Modelled from the spec: the display label of a match —
`"<courseTitle> - Lesson <n>"` when a lesson number is present in the
metadata, `"<courseTitle>"` alone otherwise. -/
def resolveLabel (m : SearchMetadata) : String :=
  courseTitleOf m ++
    (match m.lesson_number with
      | some n => " - Lesson " ++ toString n
      | none => "")

/-- Modelled from the spec: one formatted match — a bracketed label header
followed by the match text. -/
def formatEntry (m : SearchMetadata) (doc : String) : String :=
  "[" ++ resolveLabel m ++ "]\n" ++ doc

/-- Modelled from the spec: the SourceRecord of one match; the deep link is
resolved through the Retrieval Backend when a lesson number is present. -/
def sourceOf (store : VectorStore) (m : SearchMetadata) : SourceRecord :=
  { text := resolveLabel m,
    link := match m.lesson_number with
      | some n => store.get_lesson_link (courseTitleOf m) n
      | none => none }

/-- Modelled from the spec: `CourseSearchTool.execute` of the missing
`search_tools.py`.  The tool's mutable `last_sources` slot is passed as the
`last_sources` argument and returned updated: errors and empty results leave
it untouched; a non-empty match list fully replaces it. -/
def executeSearch (store : VectorStore) (query : String)
    (course_name : Option String) (lesson_number : Option Int)
    (last_sources : List SourceRecord) : String × List SourceRecord :=
  let results := store.search query course_name lesson_number
  match results.error with
  | some e => (e, last_sources)
  | none =>
    if results.documents.isEmpty then
      (emptyResultMessage course_name lesson_number, last_sources)
    else
      let pairs := results.documents.zip results.metadata
      (String.intercalate "\n\n" (pairs.map (fun p => formatEntry p.2 p.1)),
       pairs.map (fun p => sourceOf store p.2))

/-! ### Transcript-shape predicates (for the transcript invariant) -/

/-- An assistant turn carrying model content blocks. -/
def isAssistantBlocks (m : Message) : Bool :=
  m.role == "assistant" &&
    (match m.content with
      | .blocks _ => true
      | _ => false)

/-- A user turn carrying tool results. -/
def isUserResults (m : Message) : Bool :=
  m.role == "user" &&
    (match m.content with
      | .toolResults _ => true
      | _ => false)

/-- The tail of a tool-calling transcript: assistant/tool-result pairs. -/
def altTail : List Message → Bool
  | [] => true
  | a :: u :: rest => isAssistantBlocks a && isUserResults u && altTail rest
  | [_] => false

/-- A well-shaped tool-calling transcript: one leading user turn carrying the
query, then strictly alternating assistant (blocks) / user (tool results). -/
def transcriptOk (query : String) : List Message → Bool
  | m :: rest => m == userMsg query && altTail rest
  | [] => false

/-! ### Concrete fixtures used by witnesses and counterexamples -/

/-- A tool-use content block with the given id, tool name and (duck-typed)
text. -/
def toolUseBlock (i nm t : String) : ContentBlock :=
  { type := "tool_use", text := t, id := i, name := nm,
    input := [("query", "x")] }

/-- A plain text content block. -/
def textBlock (t : String) : ContentBlock :=
  { type := "text", text := t, id := "", name := "", input := [] }

/-- A client that answers with text at once. -/
def endTurnClient : ModelClient :=
  fun _ => { stop_reason := "end_turn", content := [textBlock "hello"] }

/-- A client that requests one tool call on each of its first two invocations
of a run and synthesizes text on the third. -/
def twoRoundClient : ModelClient := fun trace =>
  if trace.length ≤ 1 then
    { stop_reason := "tool_use",
      content := [toolUseBlock "t1" "search_course_content" ""] }
  else if trace.length = 2 then
    { stop_reason := "tool_use",
      content := [toolUseBlock "t2" "get_course_outline" ""] }
  else
    { stop_reason := "end_turn", content := [textBlock "final answer"] }

/-- A client that requests a tool call on every invocation; the second round
asks for a different tool than the first. -/
def bothRoundsToolClient : ModelClient := fun trace =>
  if trace.length ≤ 1 then
    { stop_reason := "tool_use",
      content := [toolUseBlock "t1" "search_course_content" "I tried."] }
  else
    { stop_reason := "tool_use",
      content := [toolUseBlock "t2" "get_course_outline" "I tried again."] }

/-- A client that requests the same tool call on every invocation. -/
def alwaysToolClient : ModelClient :=
  fun _ =>
    { stop_reason := "tool_use",
      content :=
        [toolUseBlock "t1" "search_course_content"
          "I will search for course information."] }

/-- A tool manager whose every call produces a result. -/
def okManager : ToolManager := fun _ _ => some "tool result"

/-- A tool manager whose every call fails to produce a result. -/
def failingManager : ToolManager := fun _ _ => none

/-- A tool manager that succeeds on the search tool and fails on any other
tool. -/
def mixedManager : ToolManager := fun nm _ =>
  if nm = "search_course_content" then some "result" else none

/-- The round-1 invocation parameters of the concrete runs below (query "q",
no history, one schema "sch"). -/
def p1q : ApiParams := toolParams [userMsg "q"] SYSTEM_PROMPT ["sch"]

/-- Transcript after round 1 of the `twoRoundClient`/`okManager` run. -/
def c1m1 : List Message :=
  [userMsg "q",
   { role := "assistant",
     content := .blocks [toolUseBlock "t1" "search_course_content" ""] },
   { role := "user",
     content := .toolResults [{ tool_use_id := "t1", content := "tool result" }] }]

/-- Round-2 invocation parameters of the `twoRoundClient`/`okManager` run. -/
def c1p2 : ApiParams := toolParams c1m1 SYSTEM_PROMPT ["sch"]

/-- Transcript after round 2 of the `twoRoundClient`/`okManager` run. -/
def c1m2 : List Message :=
  c1m1 ++
    [{ role := "assistant",
       content := .blocks [toolUseBlock "t2" "get_course_outline" ""] },
     { role := "user",
       content := .toolResults [{ tool_use_id := "t2", content := "tool result" }] }]

/-- Forced-synthesis invocation parameters of that run. -/
def c1p3 : ApiParams := finalParams c1m2 SYSTEM_PROMPT

/-- Transcript after round 1 of the `bothRoundsToolClient`/`mixedManager`
run. -/
def cxm1 : List Message :=
  [userMsg "q",
   { role := "assistant",
     content := .blocks [toolUseBlock "t1" "search_course_content" "I tried."] },
   { role := "user",
     content := .toolResults [{ tool_use_id := "t1", content := "result" }] }]

/-- Round-2 invocation parameters of the `bothRoundsToolClient` run. -/
def cxp2 : ApiParams := toolParams cxm1 SYSTEM_PROMPT ["sch"]

/-- A fallible client modelling a transport failure on every invocation. -/
def errClientE : ModelClientE := fun _ => .error "network down"

/-- A registry whose only handler raises on every call. -/
def raisingRegistry : ToolRegistry :=
  { handlers := [("search_course_content", fun _ => .error "boom")] }

/-- A backend that finds nothing. -/
def noMatchStore : VectorStore :=
  { search := fun _ _ _ => { documents := [], metadata := [], error := none },
    get_lesson_link := fun _ _ => none }

/-- A backend with two matches in the same course. -/
def twoMatchStore : VectorStore :=
  { search := fun _ _ _ =>
      { documents := ["doc zero", "doc one"],
        metadata :=
          [{ course_title := some "Course A", lesson_number := some 0 },
           { course_title := some "Course A", lesson_number := some 1 }],
        error := none },
    get_lesson_link := fun _ n => some ("https://example.com/lesson/" ++ toString n) }

/-! ## Helper lemmas -/

/-- `_execute_tools` as a filter-and-map: one result per `tool_use` block
whose dispatch produced a result, in block order. -/
theorem execute_tools_eq_filter (tm : ToolManager) (content : List ContentBlock) :
    execute_tools tm content =
      (content.filter fun b => b.type == "tool_use" && (tm b.name b.input).isSome).map
        fun b => { tool_use_id := b.id, content := (tm b.name b.input).getD "" } := by
  induction content with
  | nil => rfl
  | cons b rest ih =>
    by_cases hb : b.type = "tool_use"
    · cases h : tm b.name b.input with
      | none => simp [execute_tools, List.filter_cons, hb, h, ih]
      | some r => simp [execute_tools, List.filter_cons, hb, h, ih]
    · simp [execute_tools, List.filter_cons, hb, ih]

/-- The loop makes at most `fuel + 1` further model invocations. -/
theorem seqLoop_trace_length (client : ModelClient) (s : String)
    (ts : List ToolSchema) (tm : ToolManager) :
    ∀ (fuel : Nat) (msgs : List Message) (tr : List ApiParams),
      ((seqLoop client s ts tm msgs tr fuel).1).length ≤ tr.length + fuel + 1 := by
  intro fuel
  induction fuel with
  | zero => intro msgs tr; simp [seqLoop]
  | succ fuel ih =>
    intro msgs tr
    simp only [seqLoop]
    split
    · simp
    · split
      · simp
      · refine le_trans (ih _ _) ?_
        simp
        omega

/-- `generate_response` makes at most three model invocations. -/
theorem generate_response_length (client : ModelClient) (q : String)
    (hist : Option String) (tools : Option (List ToolSchema))
    (tm : Option ToolManager) :
    ((generate_response client q hist tools tm).1).length ≤ 3 := by
  rcases tools with _ | ts <;> rcases tm with _ | m <;>
    simp only [generate_response, noToolsCall, List.length_cons, List.length_nil]
  · omega
  · omega
  · omega
  · split
    · simp
    · have h := seqLoop_trace_length client (buildSystem hist) ts m
        MAX_TOOL_ROUNDS [userMsg q] []
      simpa [sequential_tool_calling, MAX_TOOL_ROUNDS] using h

/-- Every invocation of the loop carries the system content it was started
with. -/
theorem seqLoop_system (client : ModelClient) (s : String)
    (ts : List ToolSchema) (tm : ToolManager) :
    ∀ (fuel : Nat) (msgs : List Message) (tr : List ApiParams),
      (∀ p ∈ tr, p.system = s) →
      ∀ p ∈ (seqLoop client s ts tm msgs tr fuel).1, p.system = s := by
  intro fuel
  induction fuel with
  | zero =>
    intro msgs tr htr p hp
    simp only [seqLoop] at hp
    rcases List.mem_append.1 hp with h | h
    · exact htr p h
    · simp only [List.mem_singleton] at h
      subst h
      rfl
  | succ fuel ih =>
    intro msgs tr htr p hp
    have htr' : ∀ q ∈ tr ++ [toolParams msgs s ts], q.system = s := by
      intro q hq
      rcases List.mem_append.1 hq with h | h
      · exact htr q h
      · simp only [List.mem_singleton] at h
        subst h
        rfl
    simp only [seqLoop] at hp
    split at hp
    · exact htr' p hp
    · split at hp
      · exact htr' p hp
      · exact ih _ _ htr' p hp

/-- One loop step that returns text directly (no tool use). -/
theorem seqLoop_step_text (client : ModelClient) (s : String)
    (ts : List ToolSchema) (tm : ToolManager) (msgs : List Message)
    (tr : List ApiParams) (fuel : Nat)
    (h1 : (client (tr ++ [toolParams msgs s ts])).stop_reason ≠ "tool_use") :
    seqLoop client s ts tm msgs tr (fuel + 1) =
      (tr ++ [toolParams msgs s ts],
       firstText? (client (tr ++ [toolParams msgs s ts])).content) := by
  simp only [seqLoop]
  rw [if_pos h1]

/-- One loop step whose dispatch yields zero outcomes: early termination. -/
theorem seqLoop_step_allfail (client : ModelClient) (s : String)
    (ts : List ToolSchema) (tm : ToolManager) (msgs : List Message)
    (tr : List ApiParams) (fuel : Nat)
    (h1 : (client (tr ++ [toolParams msgs s ts])).stop_reason = "tool_use")
    (h2 : execute_tools tm (client (tr ++ [toolParams msgs s ts])).content = []) :
    seqLoop client s ts tm msgs tr (fuel + 1) =
      (tr ++ [toolParams msgs s ts],
       some (match (client (tr ++ [toolParams msgs s ts])).content with
         | [] => FALLBACK_MESSAGE
         | block :: _ => block.text)) := by
  simp only [seqLoop]
  rw [if_neg (by simp [h1]), if_pos (by simp [h2])]

/-- One loop step with tool use and at least one produced outcome. -/
theorem seqLoop_step_continue (client : ModelClient) (s : String)
    (ts : List ToolSchema) (tm : ToolManager) (msgs : List Message)
    (tr : List ApiParams) (fuel : Nat)
    (h1 : (client (tr ++ [toolParams msgs s ts])).stop_reason = "tool_use")
    (h2 : execute_tools tm (client (tr ++ [toolParams msgs s ts])).content ≠ []) :
    seqLoop client s ts tm msgs tr (fuel + 1) =
      seqLoop client s ts tm
        ((msgs ++
            [{ role := "assistant",
               content := .blocks (client (tr ++ [toolParams msgs s ts])).content }]) ++
          [{ role := "user",
             content := .toolResults
               (execute_tools tm (client (tr ++ [toolParams msgs s ts])).content) }])
        (tr ++ [toolParams msgs s ts]) fuel := by
  simp only [seqLoop]
  rw [if_neg (by simp [h1]), if_neg (by simp [List.isEmpty_iff, h2])]

/-- The base case of the loop, the forced synthesis call. -/
theorem seqLoop_zero (client : ModelClient) (s : String)
    (ts : List ToolSchema) (tm : ToolManager) (msgs : List Message)
    (tr : List ApiParams) :
    seqLoop client s ts tm msgs tr 0 =
      (tr ++ [finalParams msgs s],
       firstText? (client (tr ++ [finalParams msgs s])).content) := rfl

/-- Appending one assistant/tool-result pair keeps the alternating tail. -/
theorem altTail_append : ∀ (rest : List Message) (a u : Message),
    isAssistantBlocks a = true → isUserResults u = true →
    altTail rest = true → altTail (rest ++ [a, u]) = true
  | [], a, u, ha, hu, _ => by simp [altTail, ha, hu]
  | [_], _, _, _, _, h => by simp [altTail] at h
  | x :: y :: rest, a, u, ha, hu, h => by
    simp only [altTail, Bool.and_eq_true] at h
    simpa [altTail, Bool.and_eq_true, h.1.1, h.1.2] using
      altTail_append rest a u ha hu h.2

/-- Appending one assistant/tool-result pair keeps the transcript shape. -/
theorem transcriptOk_append (q : String) (msgs : List Message) (a u : Message)
    (hm : transcriptOk q msgs = true)
    (ha : isAssistantBlocks a = true) (hu : isUserResults u = true) :
    transcriptOk q (msgs ++ [a, u]) = true := by
  cases msgs with
  | nil => simp [transcriptOk] at hm
  | cons m rest =>
    simp only [transcriptOk, Bool.and_eq_true] at hm
    simp only [List.cons_append, transcriptOk, Bool.and_eq_true]
    exact ⟨hm.1, altTail_append rest a u ha hu hm.2⟩

/-- Indexing into a list extended by one element. -/
theorem getElem?_append_singleton {α : Type} (l : List α) (x : α) (i : Nat)
    (p : α) (hp : (l ++ [x])[i]? = some p) :
    (i < l.length ∧ l[i]? = some p) ∨ (i = l.length ∧ p = x) := by
  rcases Nat.lt_or_ge i l.length with h | h
  · exact Or.inl ⟨h, by rwa [List.getElem?_append_left h] at hp⟩
  · rw [List.getElem?_append_right h] at hp
    cases hd : i - l.length with
    | zero =>
      rw [hd] at hp
      simp only [List.getElem?_cons_zero, Option.some.injEq] at hp
      exact Or.inr ⟨by omega, hp.symm⟩
    | succ k =>
      rw [hd] at hp
      simp at hp

/-- The transcript invariant of the loop: every invocation's message list is
a well-shaped transcript of `1 + 2 * i` messages, `i` being the invocation's
position in the run. -/
theorem seqLoop_transcript (client : ModelClient) (q s : String)
    (ts : List ToolSchema) (tm : ToolManager) :
    ∀ (fuel : Nat) (msgs : List Message) (tr : List ApiParams),
      transcriptOk q msgs = true →
      msgs.length = 1 + 2 * tr.length →
      (∀ i p, tr[i]? = some p →
        transcriptOk q p.messages = true ∧ p.messages.length = 1 + 2 * i) →
      ∀ i p, ((seqLoop client s ts tm msgs tr fuel).1)[i]? = some p →
        transcriptOk q p.messages = true ∧ p.messages.length = 1 + 2 * i := by
  intro fuel
  induction fuel with
  | zero =>
    intro msgs tr hok hlen htr i p hp
    simp only [seqLoop] at hp
    rcases getElem?_append_singleton _ _ _ _ hp with ⟨_, h⟩ | ⟨hi, h⟩
    · exact htr i p h
    · subst h
      subst hi
      exact ⟨hok, hlen⟩
  | succ fuel ih =>
    intro msgs tr hok hlen htr i p hp
    have htr' : ∀ j pp, (tr ++ [toolParams msgs s ts])[j]? = some pp →
        transcriptOk q pp.messages = true ∧ pp.messages.length = 1 + 2 * j := by
      intro j pp hpp
      rcases getElem?_append_singleton _ _ _ _ hpp with ⟨_, h⟩ | ⟨hj, h⟩
      · exact htr j pp h
      · subst h
        subst hj
        exact ⟨hok, hlen⟩
    simp only [seqLoop] at hp
    split at hp
    · exact htr' i p hp
    · split at hp
      · exact htr' i p hp
      · refine ih _ _ ?_ ?_ htr' i p hp
        · rw [List.append_assoc]
          exact transcriptOk_append q msgs _ _ hok (by simp [isAssistantBlocks])
            (by simp [isUserResults])
        · simp only [List.length_append, List.length_cons, List.length_nil,
            List.length_singleton]
          omega

/-- `_execute_tools` with a manager that never raises agrees with the pure
embedding. -/
theorem execute_toolsE_ok (tm : ToolManager) (content : List ContentBlock) :
    execute_toolsE (fun nm args => .ok (tm nm args)) content =
      .ok (execute_tools tm content) := by
  induction content with
  | nil => rfl
  | cons b rest ih =>
    by_cases hb : b.type = "tool_use"
    · cases h : tm b.name b.input with
      | none => simp [execute_toolsE, execute_tools, hb, h, ih]
      | some r => simp [execute_toolsE, execute_tools, hb, h, ih]
    · simp [execute_toolsE, execute_tools, hb, ih]

/-- Tool dispatch through a registry never produces an exception at the
orchestrator's boundary. -/
theorem execute_toolsE_registry (reg : ToolRegistry) (content : List ContentBlock) :
    execute_toolsE (registryManagerE reg) content =
      .ok (execute_tools reg.execute_tool content) :=
  execute_toolsE_ok reg.execute_tool content

/-- The fallible loop with a non-failing client and a non-raising manager
agrees with the pure loop. -/
theorem seqLoopE_ok (client : ModelClient) (s : String) (ts : List ToolSchema)
    (tm : ToolManager) :
    ∀ (fuel : Nat) (msgs : List Message) (tr : List ApiParams),
      seqLoopE (fun t => .ok (client t)) s ts (fun nm args => .ok (tm nm args))
          msgs tr fuel =
        .ok (seqLoop client s ts tm msgs tr fuel) := by
  intro fuel
  induction fuel with
  | zero => intro msgs tr; rfl
  | succ fuel ih =>
    intro msgs tr
    simp only [seqLoopE, seqLoop, execute_toolsE_ok]
    split
    · rfl
    · split
      · rfl
      · exact ih _ _

/-- Any error escaping the fallible loop run with a registry-backed manager
originates in the Model Client. -/
theorem seqLoopE_error_from_client (client : ModelClientE) (s : String)
    (ts : List ToolSchema) (reg : ToolRegistry) :
    ∀ (fuel : Nat) (msgs : List Message) (tr : List ApiParams) (e : String),
      seqLoopE client s ts (registryManagerE reg) msgs tr fuel = .error e →
      ∃ t, client t = .error e := by
  intro fuel
  induction fuel with
  | zero =>
    intro msgs tr e h
    simp only [seqLoopE] at h
    cases hc : client (tr ++ [finalParams msgs s]) with
    | error e' =>
      rw [hc] at h
      simp only [Except.error.injEq] at h
      exact ⟨_, by rw [hc, h]⟩
    | ok r =>
      rw [hc] at h
      simp at h
  | succ fuel ih =>
    intro msgs tr e h
    simp only [seqLoopE] at h
    cases hc : client (tr ++ [toolParams msgs s ts]) with
    | error e' =>
      rw [hc] at h
      simp only [Except.error.injEq] at h
      exact ⟨_, by rw [hc, h]⟩
    | ok r =>
      rw [hc] at h
      simp only [execute_toolsE_registry] at h
      split at h
      · simp at h
      · split at h
        · simp at h
        · exact ih _ _ _ h

/-- With a non-empty tools list and a manager, `generate_response` runs the
sequential tool-calling protocol. -/
theorem generate_response_tools (client : ModelClient) (q : String)
    (hist : Option String) (ts : List ToolSchema) (tm : ToolManager)
    (hts : ts ≠ []) :
    generate_response client q hist (some ts) (some tm) =
      sequential_tool_calling client q (buildSystem hist) ts tm := by
  simp only [generate_response]
  rw [if_neg]
  simp [List.isEmpty_iff, hts]

/-- The protocol starts with fuel `MAX_TOOL_ROUNDS = 2`, written in successor
form. -/
theorem sequential_tool_calling_eq (client : ModelClient)
    (q s : String) (ts : List ToolSchema) (tm : ToolManager) :
    sequential_tool_calling client q s ts tm =
      seqLoop client s ts tm [userMsg q] [] (0 + 1 + 1) := rfl

/-- Whenever tools and manager are not both supplied (or the tools list is
empty), `generate_response` makes the single no-tools call. -/
theorem generate_response_no_tools (client : ModelClient) (q : String)
    (hist : Option String) (tools : Option (List ToolSchema))
    (tm : Option ToolManager)
    (h : ∀ ts m, tools = some ts → tm = some m → ts = []) :
    generate_response client q hist tools tm =
      ([finalParams [userMsg q] (buildSystem hist)],
       firstText? (client [finalParams [userMsg q] (buildSystem hist)]).content) := by
  rcases tools with _ | ts
  · rfl
  · rcases tm with _ | m
    · rfl
    · have h0 := h ts m rfl rfl
      subst h0
      rfl

/-- Any error escaping the fallible no-tools call originates in the client. -/
theorem noToolsCallE_error (clientE : ModelClientE) (q s e : String)
    (h : noToolsCallE clientE q s = .error e) : ∃ t, clientE t = .error e := by
  simp only [noToolsCallE] at h
  cases hc : clientE [finalParams [userMsg q] s] with
  | error e' =>
    rw [hc] at h
    simp only [Except.error.injEq] at h
    exact ⟨_, by rw [hc, h]⟩
  | ok r =>
    rw [hc] at h
    simp at h

/-- The fallible orchestrator with a non-failing client and a non-raising
manager agrees with the pure embedding. -/
theorem generate_responseE_ok (client : ModelClient) (q : String)
    (hist : Option String) (tools : Option (List ToolSchema)) (tm : ToolManager) :
    generate_responseE (fun t => .ok (client t)) q hist tools
        (some (fun nm args => .ok (tm nm args))) =
      .ok (generate_response client q hist tools (some tm)) := by
  cases tools with
  | none => rfl
  | some ts =>
    by_cases h : ts.isEmpty = true
    · simp only [generate_responseE, generate_response, if_pos h]
      rfl
    · simp only [generate_responseE, generate_response, if_neg h]
      exact seqLoopE_ok client (buildSystem hist) ts tm MAX_TOOL_ROUNDS [userMsg q] []

/-! ## Claims -/

/-- C3: for every query, if no tools/tool manager are supplied (or the tools
list is empty), or tools are supplied but the first model response does not
signal tool use, exactly one model invocation occurs and its text content is
returned unchanged. -/
theorem c3_single_invocation :
    (∀ (client : ModelClient) (q : String) (hist : Option String)
        (tools : Option (List ToolSchema)) (tm : Option ToolManager),
      (∀ ts m, tools = some ts → tm = some m → ts = []) →
      generate_response client q hist tools tm =
        ([finalParams [userMsg q] (buildSystem hist)],
         firstText? (client [finalParams [userMsg q] (buildSystem hist)]).content)) ∧
    (∀ (client : ModelClient) (q : String) (hist : Option String)
        (ts : List ToolSchema) (tm : ToolManager),
      ts ≠ [] →
      (client [toolParams [userMsg q] (buildSystem hist) ts]).stop_reason ≠ "tool_use" →
      generate_response client q hist (some ts) (some tm) =
        ([toolParams [userMsg q] (buildSystem hist) ts],
         firstText? (client [toolParams [userMsg q] (buildSystem hist) ts]).content)) := by
  constructor
  · exact generate_response_no_tools
  · intro client q hist ts tm hts h1
    rw [generate_response_tools client q hist ts tm hts, sequential_tool_calling_eq]
    exact seqLoop_step_text client (buildSystem hist) ts tm [userMsg q] [] (0 + 1) h1

/-- C3 witness: concrete runs of both branches. -/
theorem c3_witness :
    generate_response endTurnClient "q" none none (some okManager) =
      ([finalParams [userMsg "q"] (buildSystem none)],
       firstText? (endTurnClient [finalParams [userMsg "q"] (buildSystem none)]).content) ∧
    (endTurnClient [toolParams [userMsg "q"] (buildSystem none) ["sch"]]).stop_reason ≠
      "tool_use" ∧
    generate_response endTurnClient "q" none (some ["sch"]) (some okManager) =
      ([toolParams [userMsg "q"] (buildSystem none) ["sch"]],
       firstText? (endTurnClient [toolParams [userMsg "q"] (buildSystem none) ["sch"]]).content) := by
  refine ⟨?_, by decide, ?_⟩
  · exact c3_single_invocation.1 endTurnClient "q" none none (some okManager)
      (fun ts m h _ => by cases h)
  · exact c3_single_invocation.2 endTurnClient "q" none ["sch"] okManager
      (by decide) (by decide)

/-- C4: the tool-result list contains exactly one outcome per tool call whose
handler produced a result, keyed by that call's id, in call order; calls
producing no result are omitted; two successful calls yield their two
outcomes in order. -/
theorem c4_tool_result_list (tm : ToolManager) (content : List ContentBlock) :
    execute_tools tm content =
      (content.filter fun b => b.type == "tool_use" && (tm b.name b.input).isSome).map
        (fun b => { tool_use_id := b.id, content := (tm b.name b.input).getD "" }) ∧
    (execute_tools tm content).map (fun r => r.tool_use_id) =
      (content.filter fun b => b.type == "tool_use" && (tm b.name b.input).isSome).map
        (fun b => b.id) ∧
    (∀ (b1 b2 : ContentBlock) (r1 r2 : String),
      b1.type = "tool_use" → b2.type = "tool_use" →
      tm b1.name b1.input = some r1 → tm b2.name b2.input = some r2 →
      execute_tools tm [b1, b2] =
        [{ tool_use_id := b1.id, content := r1 },
         { tool_use_id := b2.id, content := r2 }]) := by
  refine ⟨execute_tools_eq_filter tm content, ?_, ?_⟩
  · rw [execute_tools_eq_filter tm content, List.map_map]
    rfl
  · intro b1 b2 r1 r2 hb1 hb2 h1 h2
    simp [execute_tools, hb1, hb2, h1, h2]

/-- C4 witness: two concrete successful tool calls keyed `t1` then `t2`. -/
theorem c4_witness :
    (toolUseBlock "t1" "search_course_content" "").type = "tool_use" ∧
    execute_tools okManager
        [toolUseBlock "t1" "search_course_content" "",
         toolUseBlock "t2" "get_course_outline" ""] =
      [{ tool_use_id := "t1", content := "tool result" },
       { tool_use_id := "t2", content := "tool result" }] := by
  refine ⟨rfl, ?_⟩
  exact (c4_tool_result_list okManager []).2.2 _ _ _ _ rfl rfl rfl rfl

/-- C9: the tool-calling path is taken only when a non-empty tools list and a
tool manager are both supplied; every other combination performs the single
no-tools model invocation and returns its text, as in the degenerate path. -/
theorem c9_tool_path_guard :
    (∀ (client : ModelClient) (q : String) (hist : Option String)
        (m : ToolManager),
      generate_response client q hist none (some m) =
        ([finalParams [userMsg q] (buildSystem hist)],
         firstText? (client [finalParams [userMsg q] (buildSystem hist)]).content)) ∧
    (∀ (client : ModelClient) (q : String) (hist : Option String)
        (ts : List ToolSchema),
      generate_response client q hist (some ts) none =
        ([finalParams [userMsg q] (buildSystem hist)],
         firstText? (client [finalParams [userMsg q] (buildSystem hist)]).content)) ∧
    (∀ (client : ModelClient) (q : String) (hist : Option String)
        (m : ToolManager),
      generate_response client q hist (some []) (some m) =
        ([finalParams [userMsg q] (buildSystem hist)],
         firstText? (client [finalParams [userMsg q] (buildSystem hist)]).content)) ∧
    (∀ (client : ModelClient) (q : String) (hist : Option String)
        (ts : List ToolSchema) (m : ToolManager),
      ts ≠ [] →
      generate_response client q hist (some ts) (some m) =
        sequential_tool_calling client q (buildSystem hist) ts m) := by
  exact ⟨fun client q hist m => rfl, fun client q hist ts => rfl,
    fun client q hist m => rfl,
    fun client q hist ts m hts => generate_response_tools client q hist ts m hts⟩

/-- C9 witness: the tool path at a concrete non-empty tools list. -/
theorem c9_witness :
    (["sch"] : List ToolSchema) ≠ [] ∧
    generate_response endTurnClient "q" none (some ["sch"]) (some okManager) =
      sequential_tool_calling endTurnClient "q" (buildSystem none) ["sch"] okManager := by
  exact ⟨by decide,
    c9_tool_path_guard.2.2.2 endTurnClient "q" none ["sch"] okManager (by decide)⟩

/-- C10: throughout a tool-calling run, every model invocation's message list
begins with the single user turn carrying the query and strictly alternates
assistant (tool-use content) / user (tool results) turns; the invocation at
position `i` (after `i` completed rounds) carries exactly `1 + 2 * i`
messages. -/
theorem c10_transcript_invariant (client : ModelClient) (q : String)
    (hist : Option String) (ts : List ToolSchema) (tm : ToolManager)
    (hts : ts ≠ []) (i : Nat) (p : ApiParams)
    (hp : ((generate_response client q hist (some ts) (some tm)).1)[i]? = some p) :
    transcriptOk q p.messages = true ∧ p.messages.length = 1 + 2 * i := by
  rw [generate_response_tools client q hist ts tm hts] at hp
  refine seqLoop_transcript client q (buildSystem hist) ts tm MAX_TOOL_ROUNDS
    [userMsg q] [] ?_ rfl ?_ i p hp
  · simp [transcriptOk, altTail]
  · intro j pp hj
    simp at hj

/-- C10 witness: the first invocation of a concrete tool-calling run. -/
theorem c10_witness :
    ((generate_response endTurnClient "q" none (some ["sch"]) (some okManager)).1)[0]? =
      some p1q ∧
    transcriptOk "q" p1q.messages = true ∧ p1q.messages.length = 1 + 2 * 0 := by
  have h := c10_transcript_invariant endTurnClient "q" none ["sch"] okManager
    (by decide) 0 p1q rfl
  exact ⟨rfl, h.1, h.2⟩

/-- C6: the system content of every model invocation of a run is
`SYSTEM_PROMPT` followed by a "Previous conversation" section containing the
history when the history is non-empty, and `SYSTEM_PROMPT` alone when the
history is absent or empty. -/
theorem c6_system_content (client : ModelClient) (q : String)
    (hist : Option String) (tools : Option (List ToolSchema))
    (tm : Option ToolManager) (p : ApiParams)
    (hp : p ∈ (generate_response client q hist tools tm).1) :
    p.system =
      match hist with
      | some h =>
          if h = "" then SYSTEM_PROMPT
          else SYSTEM_PROMPT ++ "\n\nPrevious conversation:\n" ++ h
      | none => SYSTEM_PROMPT := by
  have key : p.system = buildSystem hist := by
    rcases tools with _ | ts
    · rw [generate_response_no_tools client q hist none tm
        (fun ts m h _ => by cases h)] at hp
      simp only [List.mem_singleton] at hp
      subst hp
      rfl
    · rcases tm with _ | m
      · rw [generate_response_no_tools client q hist (some ts) none
          (fun ts' m' _ h => by cases h)] at hp
        simp only [List.mem_singleton] at hp
        subst hp
        rfl
      · by_cases h : ts = []
        · subst h
          rw [generate_response_no_tools client q hist (some []) (some m)
            (fun ts' m' h' _ => by cases h'; rfl)] at hp
          simp only [List.mem_singleton] at hp
          subst hp
          rfl
        · rw [generate_response_tools client q hist ts m h] at hp
          exact seqLoop_system client (buildSystem hist) ts m MAX_TOOL_ROUNDS
            [userMsg q] [] (by simp) p hp
  rw [key]
  cases hist with
  | none => rfl
  | some h => rfl

/-- C6 witness: a run with non-empty history. -/
theorem c6_witness :
    finalParams [userMsg "hi"] (buildSystem (some "earlier chat")) ∈
      (generate_response endTurnClient "hi" (some "earlier chat") none none).1 ∧
    (finalParams [userMsg "hi"] (buildSystem (some "earlier chat"))).system =
      SYSTEM_PROMPT ++ "\n\nPrevious conversation:\n" ++ "earlier chat" := by
  constructor
  · exact List.mem_singleton.mpr rfl
  · exact c6_system_content endTurnClient "hi" (some "earlier chat") none none
      (finalParams [userMsg "hi"] (buildSystem (some "earlier chat")))
      (List.mem_singleton.mpr rfl)

/-- C2: in every round where the model requests tool calls and the dispatch
yields zero outcomes, the run terminates with no further model invocation,
returning the response's own textual content when its content list is
non-empty and otherwise exactly the fixed apology string; in particular so
for round 1 of `generate_response`. -/
theorem c2_total_failure_short_circuit :
    (∀ (client : ModelClient) (s : String) (ts : List ToolSchema)
        (tm : ToolManager) (msgs : List Message) (tr : List ApiParams)
        (fuel : Nat) (r : ModelResponse),
      r = client (tr ++ [toolParams msgs s ts]) →
      r.stop_reason = "tool_use" →
      execute_tools tm r.content = [] →
      seqLoop client s ts tm msgs tr (fuel + 1) =
        (tr ++ [toolParams msgs s ts],
         some (match r.content with
           | [] => "I apologize, but I encountered an error while processing your request."
           | block :: _ => block.text))) ∧
    (∀ (client : ModelClient) (q : String) (hist : Option String)
        (ts : List ToolSchema) (tm : ToolManager) (r : ModelResponse),
      ts ≠ [] →
      r = client [toolParams [userMsg q] (buildSystem hist) ts] →
      r.stop_reason = "tool_use" →
      execute_tools tm r.content = [] →
      generate_response client q hist (some ts) (some tm) =
        ([toolParams [userMsg q] (buildSystem hist) ts],
         some (match r.content with
           | [] => "I apologize, but I encountered an error while processing your request."
           | block :: _ => block.text))) := by
  constructor
  · intro client s ts tm msgs tr fuel r hr h1 h2
    subst hr
    exact seqLoop_step_allfail client s ts tm msgs tr fuel h1 h2
  · intro client q hist ts tm r hts hr h1 h2
    subst hr
    rw [generate_response_tools client q hist ts tm hts, sequential_tool_calling_eq]
    exact seqLoop_step_allfail client (buildSystem hist) ts tm [userMsg q] []
      (0 + 1) h1 h2

/-- C2 witness: a concrete round-1 total dispatch failure. -/
theorem c2_witness :
    (alwaysToolClient [toolParams [userMsg "q"] (buildSystem none) ["sch"]]).stop_reason =
      "tool_use" ∧
    execute_tools failingManager
      (alwaysToolClient [toolParams [userMsg "q"] (buildSystem none) ["sch"]]).content = [] ∧
    generate_response alwaysToolClient "q" none (some ["sch"]) (some failingManager) =
      ([toolParams [userMsg "q"] (buildSystem none) ["sch"]],
       some "I will search for course information.") := by
  refine ⟨rfl, rfl, ?_⟩
  exact c2_total_failure_short_circuit.2 alwaysToolClient "q" none ["sch"]
    failingManager
    (alwaysToolClient [toolParams [userMsg "q"] (buildSystem none) ["sch"]])
    (by decide) rfl rfl rfl

/-- C1 (amended): every `generate_response` run performs at most
`MAX_TOOL_ROUNDS + 1 = 3` model invocations; and when the model requests tool
calls in both rounds and each round's dispatch produces at least one outcome,
exactly three invocations occur, the third one's parameters contain no tool
schemas, and its text is returned. -/
theorem c1_bounded_invocations (client : ModelClient) (q : String)
    (hist : Option String) (ts : List ToolSchema) (tm : ToolManager)
    (s : String) (p1 p2 p3 : ApiParams) (r1 r2 : ModelResponse)
    (m1 m2 : List Message)
    (hs : s = buildSystem hist)
    (hts : ts ≠ [])
    (hp1 : p1 = toolParams [userMsg q] s ts)
    (hr1 : r1 = client [p1])
    (h1 : r1.stop_reason = "tool_use")
    (h1' : execute_tools tm r1.content ≠ [])
    (hm1 : m1 = [userMsg q,
      { role := "assistant", content := .blocks r1.content },
      { role := "user", content := .toolResults (execute_tools tm r1.content) }])
    (hp2 : p2 = toolParams m1 s ts)
    (hr2 : r2 = client [p1, p2])
    (h2 : r2.stop_reason = "tool_use")
    (h2' : execute_tools tm r2.content ≠ [])
    (hm2 : m2 = m1 ++ [{ role := "assistant", content := .blocks r2.content },
      { role := "user", content := .toolResults (execute_tools tm r2.content) }])
    (hp3 : p3 = finalParams m2 s) :
    (∀ (client' : ModelClient) (q' : String) (hist' : Option String)
        (tools' : Option (List ToolSchema)) (tm' : Option ToolManager),
      ((generate_response client' q' hist' tools' tm').1).length ≤ 3) ∧
    generate_response client q hist (some ts) (some tm) =
      ([p1, p2, p3], firstText? (client [p1, p2, p3]).content) ∧
    p3.tools = none := by
  subst hs hp1 hr1 hm1 hp2 hr2 hm2 hp3
  refine ⟨generate_response_length, ?_, rfl⟩
  rw [generate_response_tools client q hist ts tm hts, sequential_tool_calling_eq]
  rw [seqLoop_step_continue client (buildSystem hist) ts tm [userMsg q] [] (0 + 1)
    h1 h1']
  rw [seqLoop_step_continue client (buildSystem hist) ts tm _ _ 0 h2 h2']
  rw [seqLoop_zero]
  rfl

/-- C1 counterexample: a client that requests tool calls in both rounds while
round 2's dispatch produces zero outcomes; only two model invocations occur,
not three. -/
theorem c1_counterexample :
    (bothRoundsToolClient [p1q]).stop_reason = "tool_use" ∧
    (bothRoundsToolClient [p1q, cxp2]).stop_reason = "tool_use" ∧
    generate_response bothRoundsToolClient "q" none (some ["sch"])
        (some mixedManager) = ([p1q, cxp2], some "I tried again.") ∧
    ((generate_response bothRoundsToolClient "q" none (some ["sch"])
        (some mixedManager)).1).length ≠ 3 := by
  refine ⟨rfl, rfl, rfl, ?_⟩
  decide

/-- C1 witness: a concrete run with productive tool calls in both rounds. -/
theorem c1_witness :
    execute_tools okManager (twoRoundClient [p1q]).content ≠ [] ∧
    generate_response twoRoundClient "q" none (some ["sch"]) (some okManager) =
      ([p1q, c1p2, c1p3], firstText? (twoRoundClient [p1q, c1p2, c1p3]).content) ∧
    c1p3.tools = none := by
  have h := c1_bounded_invocations twoRoundClient "q" none ["sch"] okManager
    SYSTEM_PROMPT p1q c1p2 c1p3 (twoRoundClient [p1q]) (twoRoundClient [p1q, c1p2])
    c1m1 c1m2 rfl (by decide) rfl rfl rfl (by decide) rfl rfl rfl rfl (by decide)
    rfl rfl
  exact ⟨by decide, h.2.1, h.2.2⟩

/-- C5: with the registry of the spec standing between the orchestrator and
the tool handlers, no tool-dispatch failure (unknown tool or raising handler)
ever escapes `generate_response`: with a non-failing client the run equals the
pure run, and any escaping error originates in the Model Client. -/
theorem c5_no_dispatch_exception (client : ModelClient) (clientE : ModelClientE)
    (q : String) (hist : Option String) (tools : Option (List ToolSchema))
    (reg : ToolRegistry) :
    (generate_responseE (fun t => .ok (client t)) q hist tools
        (some (registryManagerE reg)) =
      .ok (generate_response client q hist tools (some reg.execute_tool))) ∧
    (∀ e, generate_responseE clientE q hist tools (some (registryManagerE reg)) =
        .error e → ∃ t, clientE t = .error e) := by
  constructor
  · exact generate_responseE_ok client q hist tools reg.execute_tool
  · intro e h
    cases tools with
    | none => exact noToolsCallE_error clientE q (buildSystem hist) e h
    | some ts =>
      by_cases hts : ts.isEmpty = true
      · rw [generate_responseE, if_pos hts] at h
        exact noToolsCallE_error clientE q (buildSystem hist) e h
      · rw [generate_responseE, if_neg hts] at h
        exact seqLoopE_error_from_client clientE (buildSystem hist) ts reg
          MAX_TOOL_ROUNDS [userMsg q] [] e h

/-- C5 witness: a raising handler never surfaces, while a transport failure
does. -/
theorem c5_witness :
    generate_responseE errClientE "q" none (some ["sch"])
        (some (registryManagerE raisingRegistry)) = .error "network down" ∧
    (∃ t, errClientE t = .error "network down") := by
  refine ⟨rfl, ?_⟩
  exact (c5_no_dispatch_exception endTurnClient errClientE "q" none (some ["sch"])
    raisingRegistry).2 "network down" rfl

/-- C7: a Content Search whose backend search returns zero matches (and no
error) returns one of four fixed messages determined exactly by which filters
were supplied, and leaves the source list untouched. -/
theorem c7_empty_result_messages (store : VectorStore) (q : String)
    (c : Option String) (n : Option Int) (prev : List SourceRecord)
    (herr : (store.search q c n).error = none)
    (hempty : (store.search q c n).documents = []) :
    executeSearch store q c n prev =
      ((match c, n with
        | none, none => "No relevant content found."
        | some cn, none => "No relevant content found in course '" ++ cn ++ "'."
        | none, some ln =>
            "No relevant content found in lesson " ++ toString ln ++ "."
        | some cn, some ln =>
            "No relevant content found in course '" ++ cn ++ "' in lesson " ++
              toString ln ++ "."), prev) := by
  have key : emptyResultMessage c n =
      (match c, n with
        | none, none => "No relevant content found."
        | some cn, none => "No relevant content found in course '" ++ cn ++ "'."
        | none, some ln =>
            "No relevant content found in lesson " ++ toString ln ++ "."
        | some cn, some ln =>
            "No relevant content found in course '" ++ cn ++ "' in lesson " ++
              toString ln ++ ".") := by
    rcases c with _ | cn <;> rcases n with _ | ln
    · rfl
    · simp only [emptyResultMessage, String.empty_append, String.append_empty,
        String.append_assoc]
      rw [← String.append_assoc]
      rfl
    · simp only [emptyResultMessage, String.empty_append, String.append_empty,
        String.append_assoc]
      rw [← String.append_assoc]
      rfl
    · simp only [emptyResultMessage, String.empty_append, String.append_empty,
        String.append_assoc]
      rw [← String.append_assoc "'" " in lesson " (toString ln ++ "."),
        ← String.append_assoc "No relevant content found" " in course '"]
      rfl
  simp only [executeSearch, herr, hempty, List.isEmpty_nil, if_true]
  exact congrArg (fun s => (s, prev)) key

/-- C7 witness: both filters set on a backend returning zero matches. -/
theorem c7_witness :
    (noMatchStore.search "nonexistent content" (some "Test Course") (some 5)).error =
      none ∧
    executeSearch noMatchStore "nonexistent content" (some "Test Course") (some 5) [] =
      ("No relevant content found in course 'Test Course' in lesson 5.", []) := by
  refine ⟨rfl, ?_⟩
  exact c7_empty_result_messages noMatchStore "nonexistent content"
    (some "Test Course") (some 5) [] rfl rfl

/-- C8: a Content Search with a non-empty match list produces one
SourceRecord per match in match order, labeled from the match metadata (with
"unknown" substituted for an absent course title), and fully replaces the
previous source list. -/
theorem c8_source_records (store : VectorStore) (q : String)
    (c : Option String) (n : Option Int) (prev prev' : List SourceRecord)
    (herr : (store.search q c n).error = none)
    (hne : (store.search q c n).documents ≠ [])
    (hlen : (store.search q c n).documents.length =
      (store.search q c n).metadata.length) :
    ((executeSearch store q c n prev).2).length =
      (store.search q c n).documents.length ∧
    ((executeSearch store q c n prev).2).map (fun r => r.text) =
      (store.search q c n).metadata.map (fun m =>
        (match m.course_title with
          | some t => t
          | none => "unknown") ++
        (match m.lesson_number with
          | some k => " - Lesson " ++ toString k
          | none => "")) ∧
    (executeSearch store q c n prev).2 = (executeSearch store q c n prev').2 := by
  have hred : ∀ (pr : List SourceRecord), (executeSearch store q c n pr).2 =
      ((store.search q c n).documents.zip (store.search q c n).metadata).map
        (fun p => sourceOf store p.2) := by
    intro pr
    simp only [executeSearch, herr]
    rw [if_neg (by simpa [List.isEmpty_iff] using hne)]
  refine ⟨?_, ?_, by rw [hred prev, hred prev']⟩
  · rw [hred prev]
    simp only [List.length_map, List.length_zip]
    omega
  · rw [hred prev, List.map_map,
      show ((fun r : SourceRecord => r.text) ∘
          (fun p : String × SearchMetadata => sourceOf store p.2)) =
        ((fun m : SearchMetadata =>
          (match m.course_title with
            | some t => t
            | none => "unknown") ++
          (match m.lesson_number with
            | some k => " - Lesson " ++ toString k
            | none => "")) ∘ Prod.snd) from rfl,
      ← List.map_map, List.map_snd_zip _ _ (le_of_eq hlen.symm)]

/-- C8 witness: two concrete matches; labels in order and full replacement of
a previous source list. -/
theorem c8_witness :
    (twoMatchStore.search "testing concepts" none none).documents ≠ [] ∧
    ((executeSearch twoMatchStore "testing concepts" none none
        [{ text := "old", link := none }]).2).map (fun r => r.text) =
      ["Course A - Lesson 0", "Course A - Lesson 1"] ∧
    (executeSearch twoMatchStore "testing concepts" none none
        [{ text := "old", link := none }]).2 =
      (executeSearch twoMatchStore "testing concepts" none none []).2 := by
  have h := c8_source_records twoMatchStore "testing concepts" none none
    [{ text := "old", link := none }] [] rfl (by decide) rfl
  exact ⟨by decide, h.2.1, h.2.2⟩

end RagChatbot
